import Mathlib

/-
  Shallow embedding of the beza repository's server-side routes:
  the Daydream proxy endpoints (oneshot, stream, prompt — including the
  pollForResult retry loop of the beta prompt route) and the Socket.IO
  signaling relay's joinSession handler.

  External effects are abstracted into environment records: the parsed
  request body is an Except (a thrown parse error or the fields), and each
  upstream fetch is an oracle value (thrown, or a response with ok flag,
  status code, text and JSON body). Handlers are pure functions from the
  environment to the HTTP response they produce, together with counters of
  the upstream calls they perform. Routes whose body parse happens outside
  the try/catch return Except: a thrown parse error escapes the handler.
-/

namespace Beza

/-- Abstraction of a JSON body returned by the upstream API: the two fields
the prompt route inspects (id, status), plus an opaque payload so that two
bodies agreeing on id and status can still differ (needed to state that a
body is returned verbatim). -/
structure Json where
  id : Option String
  status : Option String
  payload : Nat

/-- A thrown JavaScript exception: an Error carrying a message, or any
other thrown value (the handlers distinguish the two via instanceof). -/
inductive Thrown where
  | error (msg : String)
  | other

/-- Outcome of one upstream fetch: the fetch threw, or it completed with an
ok flag, an HTTP status, a response text and a parsed JSON body. -/
inductive Upstream where
  | thrown (e : Thrown)
  | resp (ok : Bool) (status : Nat) (text : String) (json : Json)

/-- Body of an HTTP response produced by a route handler: an error object
with a string message, an error object whose message field is the JS value
undefined (catch clauses typed `any` reading .message off a non-Error), or
an upstream JSON body passed through. -/
inductive RespBody where
  | errMsg (msg : String)
  | errUndefined
  | json (j : Json)

/-- An HTTP response: status code and body. -/
structure HttpResp where
  status : Nat
  body : RespBody

/-- JavaScript truthiness of an optional string field: undefined and the
empty string are falsy, every other string is truthy. -/
def optTruthy : Option String → Bool
  | none => false
  | some s => !(s == "")

/-- The catch clause shared by the typed routes: an Error yields
HTTP 500 with its message, anything else yields the fixed
"Unknown server error" message. -/
def err500 : Thrown → HttpResp
  | .error m => ⟨500, .errMsg m⟩
  | .other => ⟨500, .errMsg "Unknown server error"⟩

/-- The catch clause of the `catch (error: any)` routes: it reads
error.message unconditionally, so a non-Error value yields an error body
whose message is undefined. -/
def errAny : Thrown → HttpResp
  | .error m => ⟨500, .errMsg m⟩
  | .other => ⟨500, .errUndefined⟩

/-- Trace of one run of the polling loop: its outcome (a success body or a
thrown error), how many status checks it performed, and the total
milliseconds it slept. -/
structure PollTrace where
  result : Except Thrown Json
  checks : Nat
  sleepMs : Nat

/-- The body of pollForResult's for-loop, recursing on the remaining
attempt budget (fuel) with i the current attempt index; cf gives the
outcome of the status-check fetch of each attempt. Each iteration performs
one check; a non-ok check throws the response text, status "succeeded"
returns the body, status "failed" throws, and any other status sleeps for
the interval and goes to the next attempt. Exhausted fuel throws the
timeout error. -/
def pollRun (cf : Nat → Upstream) (interval : Nat) : Nat → Nat → PollTrace
  | _, 0 => ⟨.error (.error "Polling timed out, result not ready"), 0, 0⟩
  | i, fuel + 1 =>
    match cf i with
    | .thrown e => ⟨.error e, 1, 0⟩
    | .resp ok _st text j =>
      if ok = false then ⟨.error (.error text), 1, 0⟩
      else if j.status = some "succeeded" then ⟨.ok j, 1, 0⟩
      else if j.status = some "failed" then
        ⟨.error (.error "Prompt failed to process"), 1, 0⟩
      else
        ⟨(pollRun cf interval (i + 1) fuel).result,
         (pollRun cf interval (i + 1) fuel).checks + 1,
         (pollRun cf interval (i + 1) fuel).sleepMs + interval⟩

/-- pollForResult as the prompt route calls it: defaults maxAttempts = 10
and interval = 3000 ms, starting at attempt 0. The stream_id and prompt_id
arguments of the source only shape the check URL and are absorbed into the
check oracle cf. -/
def pollForResult (cf : Nat → Upstream) : PollTrace :=
  pollRun cf 3000 0 10

/-- Parsed body of a prompt-route request: the three fields the routes
destructure, each possibly absent. -/
structure PromptBody where
  stream_id : Option String
  prompt : Option String
  image : Option String

/-- Environment of one request to the beta prompt route: the body parse
outcome, the initial submission fetch, and the oracle for the polling
status checks. -/
structure PromptEnv where
  body : Except Thrown PromptBody
  submit : Upstream
  check : Nat → Upstream

/-- Result of running the beta prompt route: the HTTP response, how many
submission fetches were issued (0 or 1) and how many status-check fetches
the polling loop issued. -/
structure PromptRun where
  resp : HttpResp
  submitCalls : Nat
  checkCalls : Nat

/-- The beta prompt route handler (the route with polling). Body parse and
everything else sit inside try/catch; missing or empty stream_id or prompt
give 400 before any fetch; a non-ok submission is mirrored with the
upstream status and text; an ok submission whose body has a truthy id and a
status other than "succeeded" enters pollForResult, whose thrown errors the
catch turns into 500; otherwise the initial body is returned verbatim. -/
def promptPOST (env : PromptEnv) : PromptRun :=
  match env.body with
  | .error e => ⟨err500 e, 0, 0⟩
  | .ok b =>
    if optTruthy b.stream_id = false ∨ optTruthy b.prompt = false then
      ⟨⟨400, .errMsg "Missing required fields: stream_id and prompt are required"⟩, 0, 0⟩
    else
      match env.submit with
      | .thrown e => ⟨err500 e, 1, 0⟩
      | .resp ok status text j =>
        if ok = false then ⟨⟨status, .errMsg text⟩, 1, 0⟩
        else if optTruthy j.id = true ∧ j.status ≠ some "succeeded" then
          match (pollForResult env.check).result with
          | .ok data => ⟨⟨200, .json data⟩, 1, (pollForResult env.check).checks⟩
          | .error e => ⟨err500 e, 1, (pollForResult env.check).checks⟩
        else ⟨⟨200, .json j⟩, 1, 0⟩

/-- Parsed body of a oneshot-route request. -/
structure OneshotBody where
  prompt : Option String
  image : Option String

/-- Environment of one request to a route with a single upstream fetch. -/
structure OneshotEnv where
  body : Except Thrown OneshotBody
  upstream : Upstream

/-- Result of a single-fetch route: the HTTP response and how many
upstream fetches were issued (0 or 1). -/
structure SimpleRun where
  resp : HttpResp
  calls : Nat

/-- The oneshot route handler: body parse inside try/catch, 400 on a falsy
prompt before any fetch, upstream status and text mirrored on a non-ok
response, upstream JSON returned verbatim on ok, err500 on a throw. -/
def oneshotPOST (env : OneshotEnv) : SimpleRun :=
  match env.body with
  | .error e => ⟨err500 e, 0⟩
  | .ok b =>
    if optTruthy b.prompt = false then ⟨⟨400, .errMsg "Missing prompt"⟩, 0⟩
    else
      match env.upstream with
      | .thrown e => ⟨err500 e, 1⟩
      | .resp ok status text j =>
        if ok = false then ⟨⟨status, .errMsg text⟩, 1⟩
        else ⟨⟨200, .json j⟩, 1⟩

/-- Parsed body of a stream-route request. -/
structure StreamBody where
  pipeline_id : Option String

/-- Environment of one request to a stream route. -/
structure StreamEnv where
  body : Except Thrown StreamBody
  upstream : Upstream

/-- The typed stream route handler (body parse inside try/catch): 400 on a
falsy pipeline_id before any fetch, upstream mirrored on non-ok, JSON
returned verbatim on ok, err500 on a throw. -/
def streamPOST (env : StreamEnv) : SimpleRun :=
  match env.body with
  | .error e => ⟨err500 e, 0⟩
  | .ok b =>
    if optTruthy b.pipeline_id = false then
      ⟨⟨400, .errMsg "Missing pipeline_id"⟩, 0⟩
    else
      match env.upstream with
      | .thrown e => ⟨err500 e, 1⟩
      | .resp ok status text j =>
        if ok = false then ⟨⟨status, .errMsg text⟩, 1⟩
        else ⟨⟨200, .json j⟩, 1⟩

/-- The untyped stream route handler: `await req.json()` and the
pipeline_id check run before the try block, so a thrown body parse escapes
the handler (the .error case of the outer Except); the fetch and its
handling sit inside try with a `catch (error: any)` clause. -/
def streamV1POST (env : StreamEnv) : Except Thrown SimpleRun :=
  match env.body with
  | .error e => .error e
  | .ok b =>
    if optTruthy b.pipeline_id = false then
      .ok ⟨⟨400, .errMsg "Missing pipeline_id"⟩, 0⟩
    else
      match env.upstream with
      | .thrown e => .ok ⟨errAny e, 1⟩
      | .resp ok status text j =>
        if ok = false then .ok ⟨⟨status, .errMsg text⟩, 1⟩
        else .ok ⟨⟨200, .json j⟩, 1⟩

/-- Environment of one request to the v1 prompt route (no polling). -/
structure PromptV1Env where
  body : Except Thrown PromptBody
  upstream : Upstream

/-- The v1 prompt route handler: `await req.json()` and the field check run
before the try block, so a thrown body parse escapes the handler; the
check requires stream_id, prompt AND image to be truthy, otherwise 400 with
"Missing required fields" and no fetch; the fetch sits inside try with a
`catch (error: any)` clause. -/
def promptV1POST (env : PromptV1Env) : Except Thrown SimpleRun :=
  match env.body with
  | .error e => .error e
  | .ok b =>
    if optTruthy b.stream_id = false ∨ optTruthy b.prompt = false ∨
        optTruthy b.image = false then
      .ok ⟨⟨400, .errMsg "Missing required fields"⟩, 0⟩
    else
      match env.upstream with
      | .thrown e => .ok ⟨errAny e, 1⟩
      | .resp ok status text j =>
        if ok = false then .ok ⟨⟨status, .errMsg text⟩, 1⟩
        else .ok ⟨⟨200, .json j⟩, 1⟩

/-- State of the signaling relay: the room memberships accumulated so far,
as (socket id, room id) pairs. -/
structure RelayState where
  rooms : List (String × String)

/-- The joinSession handler: socket.join(roomId) adds the emitting
connection to the broadcast group of exactly the received name, with no
validation or transformation of the identifier. -/
def joinSession (st : RelayState) (sid roomId : String) : RelayState :=
  ⟨(sid, roomId) :: st.rooms⟩

/-- Process a list of joinSession events (socket id, room id) starting
from the empty relay state. -/
def applyJoins : List (String × String) → RelayState
  | [] => ⟨[]⟩
  | e :: rest => joinSession (applyJoins rest) e.1 e.2

/-- Modelled from the spec: the Socket.IO room broadcast semantics (the
library code is not part of this repository). A broadcast to a room
reaches exactly the connections that are members of the broadcast group of
that name. -/
def broadcastReaches (st : RelayState) (room sid : String) : Prop :=
  (sid, room) ∈ st.rooms

/-- A status-check outcome that keeps the polling loop going: the check
completed ok and its body's status is neither "succeeded" nor "failed". -/
def nonterminalOk (u : Upstream) : Prop :=
  ∃ st text j, u = .resp true st text j ∧
    j.status ≠ some "succeeded" ∧ j.status ≠ some "failed"

/-- A check oracle that always answers ok with status "processing". -/
def pendingCheck : Nat → Upstream :=
  fun _ => .resp true 200 "" ⟨some "j1", some "processing", 0⟩

/-- A concrete prompt-route environment: well-formed body, ok submission
whose body has an id and a non-terminal status, checks never terminal. -/
def c1Env : PromptEnv :=
  ⟨.ok ⟨some "s1", some "sunset", none⟩,
   .resp true 200 "" ⟨some "j1", some "processing", 0⟩, pendingCheck⟩

/-- When every check in the remaining budget completes ok with a
non-terminal status, the loop exhausts its fuel and throws the timeout
error. -/
theorem pollRun_timeout (cf : Nat → Upstream) (interval : Nat) :
    ∀ fuel i, (∀ k, i ≤ k → k < i + fuel → nonterminalOk (cf k)) →
      (pollRun cf interval i fuel).result =
        .error (.error "Polling timed out, result not ready") := by
  intro fuel
  induction fuel with
  | zero => intro i _; rfl
  | succ n ih =>
    intro i h
    obtain ⟨stN, text, j, hcf, h1, h2⟩ := h i (Nat.le_refl i) (by omega)
    simp only [pollRun, hcf, h1, h2, if_false, ite_false, ne_eq,
      not_false_eq_true, if_neg]
    exact ih (i + 1) (fun k hk1 hk2 => h k (by omega) (by omega))

/-- The loop performs at most fuel status checks, and its total sleep time
is at most the number of checks times the fixed interval. -/
theorem pollRun_le (cf : Nat → Upstream) (interval : Nat) :
    ∀ fuel i, (pollRun cf interval i fuel).checks ≤ fuel ∧
      (pollRun cf interval i fuel).sleepMs ≤
        (pollRun cf interval i fuel).checks * interval := by
  intro fuel
  induction fuel with
  | zero => intro i; exact ⟨Nat.le_refl 0, Nat.zero_le _⟩
  | succ n ih =>
    intro i
    simp only [pollRun]
    split
    · exact ⟨Nat.succ_le_succ (Nat.zero_le n), Nat.zero_le _⟩
    · split
      · exact ⟨Nat.succ_le_succ (Nat.zero_le n), Nat.zero_le _⟩
      · split
        · exact ⟨Nat.succ_le_succ (Nat.zero_le n), Nat.zero_le _⟩
        · split
          · exact ⟨Nat.succ_le_succ (Nat.zero_le n), Nat.zero_le _⟩
          · obtain ⟨ha, hb⟩ := ih (i + 1)
            exact ⟨Nat.add_le_add_right ha 1,
              Nat.le_trans (Nat.add_le_add_right hb interval)
                (Nat.le_of_eq (Nat.succ_mul _ _).symm)⟩

/-- The rooms accumulated by processing a list of join events are exactly
those events. -/
theorem applyJoins_rooms : ∀ evs : List (String × String),
    (applyJoins evs).rooms = evs := by
  intro evs
  induction evs with
  | nil => rfl
  | cons e rest ih => simp [applyJoins, joinSession, ih]

/-- Claim C1: when no status check within the 10-attempt budget observes a
body with status "succeeded" or "failed" (each check completing ok with a
non-terminal status), pollForResult throws the timeout error "Polling
timed out, result not ready", and the prompt proxy endpoint surfaces it to
the caller as HTTP 500 with that message in the error body. -/
theorem C1_poll_timeout_surfaced (env : PromptEnv) (b : PromptBody)
    (stN : Nat) (text : String) (j : Json)
    (hb : env.body = .ok b)
    (hs : optTruthy b.stream_id = true) (hp : optTruthy b.prompt = true)
    (hsub : env.submit = .resp true stN text j)
    (hid : optTruthy j.id = true) (hst : j.status ≠ some "succeeded")
    (hchecks : ∀ k, k < 10 → nonterminalOk (env.check k)) :
    (pollForResult env.check).result =
      .error (.error "Polling timed out, result not ready") ∧
    (promptPOST env).resp =
      ⟨500, .errMsg "Polling timed out, result not ready"⟩ := by
  have hpoll : (pollForResult env.check).result =
      .error (.error "Polling timed out, result not ready") :=
    pollRun_timeout env.check 3000 10 0 (fun k _ hk2 => hchecks k (by omega))
  refine ⟨hpoll, ?_⟩
  simp [promptPOST, err500, hb, hs, hp, hsub, hid, hst, hpoll]

/-- Claim C1 witness: a concrete run where every check answers ok with
status "processing". -/
theorem C1_poll_timeout_surfaced_witness :
    (pollForResult c1Env.check).result =
      .error (.error "Polling timed out, result not ready") ∧
    (promptPOST c1Env).resp =
      ⟨500, .errMsg "Polling timed out, result not ready"⟩ :=
  C1_poll_timeout_surfaced c1Env ⟨some "s1", some "sunset", none⟩ 200 ""
    ⟨some "j1", some "processing", 0⟩ rfl rfl rfl rfl rfl (by decide)
    (fun k _ => ⟨200, "", ⟨some "j1", some "processing", 0⟩, rfl,
      by decide, by decide⟩)

/-- Claim C2: a POST to a proxy endpoint whose parsed JSON body lacks its
required field (prompt for oneshot, pipeline_id for either stream route,
stream_id or prompt for the prompt routes) yields HTTP 400 with an error
body and issues no upstream call (the result is fixed with 0 calls,
independent of the upstream oracle). -/
theorem C2_missing_field_400 (eo : OneshotEnv) (bo : OneshotBody)
    (es : StreamEnv) (bs : StreamBody) (ev : StreamEnv) (bv : StreamBody)
    (ep : PromptEnv) (bp : PromptBody) (e1 : PromptV1Env) (b1 : PromptBody)
    (ho : eo.body = .ok bo) (hop : bo.prompt = none)
    (hs : es.body = .ok bs) (hsp : bs.pipeline_id = none)
    (hv : ev.body = .ok bv) (hvp : bv.pipeline_id = none)
    (hp : ep.body = .ok bp) (hpp : bp.stream_id = none ∨ bp.prompt = none)
    (h1 : e1.body = .ok b1) (h1p : b1.stream_id = none ∨ b1.prompt = none) :
    oneshotPOST eo = ⟨⟨400, .errMsg "Missing prompt"⟩, 0⟩ ∧
    streamPOST es = ⟨⟨400, .errMsg "Missing pipeline_id"⟩, 0⟩ ∧
    streamV1POST ev = .ok ⟨⟨400, .errMsg "Missing pipeline_id"⟩, 0⟩ ∧
    promptPOST ep =
      ⟨⟨400, .errMsg "Missing required fields: stream_id and prompt are required"⟩,
       0, 0⟩ ∧
    promptV1POST e1 = .ok ⟨⟨400, .errMsg "Missing required fields"⟩, 0⟩ := by
  refine ⟨?_, ?_, ?_, ?_, ?_⟩
  · simp [oneshotPOST, ho, hop, optTruthy]
  · simp [streamPOST, hs, hsp, optTruthy]
  · simp [streamV1POST, hv, hvp, optTruthy]
  · rcases hpp with h | h <;> simp [promptPOST, hp, h, optTruthy]
  · rcases h1p with h | h <;> simp [promptV1POST, h1, h, optTruthy]

/-- Claim C2 witness: concrete bodies missing their required fields, with
a live upstream oracle that is never consulted. -/
theorem C2_missing_field_400_witness :
    oneshotPOST ⟨.ok ⟨none, some "img"⟩, .resp true 200 "" ⟨none, none, 0⟩⟩ =
      ⟨⟨400, .errMsg "Missing prompt"⟩, 0⟩ ∧
    streamPOST ⟨.ok ⟨none⟩, .resp true 200 "" ⟨none, none, 0⟩⟩ =
      ⟨⟨400, .errMsg "Missing pipeline_id"⟩, 0⟩ ∧
    streamV1POST ⟨.ok ⟨none⟩, .resp true 200 "" ⟨none, none, 0⟩⟩ =
      .ok ⟨⟨400, .errMsg "Missing pipeline_id"⟩, 0⟩ ∧
    promptPOST ⟨.ok ⟨none, some "sunset", none⟩,
        .resp true 200 "" ⟨none, none, 0⟩, pendingCheck⟩ =
      ⟨⟨400, .errMsg "Missing required fields: stream_id and prompt are required"⟩,
       0, 0⟩ ∧
    promptV1POST ⟨.ok ⟨some "s1", none, some "img"⟩,
        .resp true 200 "" ⟨none, none, 0⟩⟩ =
      .ok ⟨⟨400, .errMsg "Missing required fields"⟩, 0⟩ :=
  C2_missing_field_400 _ ⟨none, some "img"⟩ _ ⟨none⟩ _ ⟨none⟩
    _ ⟨none, some "sunset", none⟩ _ ⟨some "s1", none, some "img"⟩
    rfl rfl rfl rfl rfl rfl rfl (Or.inl rfl) rfl (Or.inr rfl)

/-- Claim C3 counterexample: a prompt-route request in which every
upstream response (submission and all ten checks) completes ok, yet the
endpoint responds 500 with an error body instead of returning an upstream
JSON body: the polling loop exhausts its budget on status "processing" and
the timeout error is surfaced. So "upstream ok implies the upstream JSON
body is returned unchanged" fails on the prompt proxy endpoint. -/
theorem C3_counterexample :
    promptPOST ⟨.ok ⟨some "s1", some "sunset", none⟩,
        .resp true 200 "" ⟨some "j1", some "processing", 7⟩, pendingCheck⟩ =
      ⟨⟨500, .errMsg "Polling timed out, result not ready"⟩, 1, 10⟩ := rfl

/-- Claim C3 amended: for the oneshot, both stream, and v1 prompt
endpoints (and the beta prompt endpoint's initial fetch), a completed
non-ok upstream response is mirrored as the upstream status code with the
upstream text in the error body, and an ok upstream response is returned
as HTTP 200 with the upstream JSON unchanged; for the beta prompt
endpoint the ok case returns the body unchanged only when polling is not
entered (status already "succeeded", or no truthy id). -/
theorem C3_upstream_mirrored (n : Nat) (text : String) (j : Json)
    (cf : Nat → Upstream) :
    oneshotPOST ⟨.ok ⟨some "p", none⟩, .resp false n text j⟩ =
      ⟨⟨n, .errMsg text⟩, 1⟩ ∧
    oneshotPOST ⟨.ok ⟨some "p", none⟩, .resp true n text j⟩ =
      ⟨⟨200, .json j⟩, 1⟩ ∧
    streamPOST ⟨.ok ⟨some "pip"⟩, .resp false n text j⟩ =
      ⟨⟨n, .errMsg text⟩, 1⟩ ∧
    streamPOST ⟨.ok ⟨some "pip"⟩, .resp true n text j⟩ =
      ⟨⟨200, .json j⟩, 1⟩ ∧
    streamV1POST ⟨.ok ⟨some "pip"⟩, .resp false n text j⟩ =
      .ok ⟨⟨n, .errMsg text⟩, 1⟩ ∧
    streamV1POST ⟨.ok ⟨some "pip"⟩, .resp true n text j⟩ =
      .ok ⟨⟨200, .json j⟩, 1⟩ ∧
    promptV1POST ⟨.ok ⟨some "s", some "p", some "i"⟩, .resp false n text j⟩ =
      .ok ⟨⟨n, .errMsg text⟩, 1⟩ ∧
    promptV1POST ⟨.ok ⟨some "s", some "p", some "i"⟩, .resp true n text j⟩ =
      .ok ⟨⟨200, .json j⟩, 1⟩ ∧
    promptPOST ⟨.ok ⟨some "s", some "p", none⟩, .resp false n text j, cf⟩ =
      ⟨⟨n, .errMsg text⟩, 1, 0⟩ ∧
    ((j.status = some "succeeded" ∨ optTruthy j.id = false) →
      promptPOST ⟨.ok ⟨some "s", some "p", none⟩, .resp true n text j, cf⟩ =
        ⟨⟨200, .json j⟩, 1, 0⟩) := by
  refine ⟨rfl, rfl, rfl, rfl, rfl, rfl, rfl, rfl, rfl, ?_⟩
  intro h
  rcases h with h | h
  · simp [promptPOST, optTruthy, h]
  · simp [promptPOST, h, show optTruthy (some "s") = true from rfl,
      show optTruthy (some "p") = true from rfl]

/-- Claim C3 witness: the amended statement applied at a concrete input,
exercising the poll-not-entered case with a "succeeded" initial body. -/
theorem C3_upstream_mirrored_witness :
    promptPOST ⟨.ok ⟨some "s", some "p", none⟩,
        .resp true 201 "created" ⟨some "j1", some "succeeded", 3⟩, pendingCheck⟩ =
      ⟨⟨200, .json ⟨some "j1", some "succeeded", 3⟩⟩, 1, 0⟩ ∧
    oneshotPOST ⟨.ok ⟨some "p", none⟩,
        .resp false 404 "not found" ⟨none, none, 0⟩⟩ =
      ⟨⟨404, .errMsg "not found"⟩, 1⟩ :=
  ⟨(C3_upstream_mirrored 201 "created" ⟨some "j1", some "succeeded", 3⟩
      pendingCheck).2.2.2.2.2.2.2.2.2 (Or.inl rfl),
   (C3_upstream_mirrored 404 "not found" ⟨none, none, 0⟩ pendingCheck).1⟩

/-- Claim C4 counterexample: the v1 prompt route rejects a body that
carries a stream identifier and a text prompt but no image with HTTP 400
"Missing required fields" and no upstream call — on that route the image
field is required, not optional. -/
theorem C4_counterexample :
    promptV1POST ⟨.ok ⟨some "s1", some "sunset", none⟩,
        .resp true 200 "" ⟨none, none, 0⟩⟩ =
      .ok ⟨⟨400, .errMsg "Missing required fields"⟩, 0⟩ := rfl

/-- Claim C4 amended: on the beta prompt route (the polling one) the image
field is optional: any body with truthy stream_id and prompt and no image
is forwarded (the submission fetch is issued, so the missing-field 400
guard is not taken); the v1 prompt route instead also requires image and
returns 400 with no upstream call when it is absent. -/
theorem C4_image_optional (env : PromptEnv) (b : PromptBody)
    (e1 : PromptV1Env) (b1 : PromptBody)
    (hb : env.body = .ok b)
    (hs : optTruthy b.stream_id = true) (hp : optTruthy b.prompt = true)
    (h1 : e1.body = .ok b1)
    (h1s : optTruthy b1.stream_id = true) (h1p : optTruthy b1.prompt = true)
    (h1i : b1.image = none) :
    (promptPOST env).submitCalls = 1 ∧
    promptV1POST e1 = .ok ⟨⟨400, .errMsg "Missing required fields"⟩, 0⟩ := by
  constructor
  · simp only [promptPOST, hb, hs, hp]
    rw [if_neg (by simp)]
    rcases hsubm : env.submit with e | ⟨ok, n, t, j⟩
    · rfl
    · simp only []
      split
      · rfl
      · split
        · split <;> rfl
        · rfl
  · simp [promptV1POST, h1, h1i, optTruthy]

/-- Claim C4 witness: a concrete image-less body accepted and forwarded by
the beta prompt route and rejected by the v1 prompt route. -/
theorem C4_image_optional_witness :
    (promptPOST c1Env).submitCalls = 1 ∧
    promptV1POST ⟨.ok ⟨some "s1", some "sunset", none⟩,
        .resp true 200 "" ⟨none, none, 0⟩⟩ =
      .ok ⟨⟨400, .errMsg "Missing required fields"⟩, 0⟩ :=
  C4_image_optional c1Env ⟨some "s1", some "sunset", none⟩
    _ ⟨some "s1", some "sunset", none⟩ rfl rfl rfl rfl rfl rfl rfl

/-- Claim C5 counterexample: on the v1 prompt route and the untyped stream
route, the request body is parsed before the try block, so a body that
fails to parse as JSON makes the exception escape the handler (the Except
error case) instead of producing an HTTP 500 response with an error body. -/
theorem C5_counterexample :
    promptV1POST ⟨.error (.error "Unexpected token"),
        .resp true 200 "" ⟨none, none, 0⟩⟩ =
      .error (.error "Unexpected token") ∧
    streamV1POST ⟨.error (.error "Unexpected token"),
        .resp true 200 "" ⟨none, none, 0⟩⟩ =
      .error (.error "Unexpected token") := ⟨rfl, rfl⟩

/-- Claim C5 amended: on the oneshot, typed stream, and beta prompt
routes the body parse sits inside try/catch, so any thrown Error yields
HTTP 500 with the exception message in the error body — a body that fails
to parse as JSON (with no upstream call made), a throw from the upstream
fetch itself, and, on the beta prompt route, a throw surfacing out of a
polling status check; on the untyped stream and v1 prompt routes the body
parse precedes the try block and a parse failure escapes the handler,
while an exception thrown by the fetch inside the try still yields 500
with the exception message. -/
theorem C5_exceptions (m : String) (u : Upstream) (cf : Nat → Upstream) :
    oneshotPOST ⟨.error (.error m), u⟩ = ⟨⟨500, .errMsg m⟩, 0⟩ ∧
    streamPOST ⟨.error (.error m), u⟩ = ⟨⟨500, .errMsg m⟩, 0⟩ ∧
    promptPOST ⟨.error (.error m), u, cf⟩ = ⟨⟨500, .errMsg m⟩, 0, 0⟩ ∧
    streamV1POST ⟨.error (.error m), u⟩ = .error (.error m) ∧
    promptV1POST ⟨.error (.error m), u⟩ = .error (.error m) ∧
    oneshotPOST ⟨.ok ⟨some "p", none⟩, .thrown (.error m)⟩ =
      ⟨⟨500, .errMsg m⟩, 1⟩ ∧
    streamPOST ⟨.ok ⟨some "pip"⟩, .thrown (.error m)⟩ =
      ⟨⟨500, .errMsg m⟩, 1⟩ ∧
    promptPOST ⟨.ok ⟨some "s", some "p", none⟩, .thrown (.error m), cf⟩ =
      ⟨⟨500, .errMsg m⟩, 1, 0⟩ ∧
    promptPOST ⟨.ok ⟨some "s", some "p", none⟩,
        .resp true 200 "" ⟨some "j1", some "pending", 0⟩,
        fun _ => .thrown (.error m)⟩ =
      ⟨⟨500, .errMsg m⟩, 1, 1⟩ ∧
    streamV1POST ⟨.ok ⟨some "pip"⟩, .thrown (.error m)⟩ =
      .ok ⟨⟨500, .errMsg m⟩, 1⟩ ∧
    promptV1POST ⟨.ok ⟨some "s", some "p", some "i"⟩, .thrown (.error m)⟩ =
      .ok ⟨⟨500, .errMsg m⟩, 1⟩ :=
  ⟨rfl, rfl, rfl, rfl, rfl, rfl, rfl, rfl, rfl, rfl, rfl⟩

/-- Claim C6: in any iteration of the polling loop with budget left whose
status check completes ok, a body with status "succeeded" makes the loop
return that body as the success result; a body with status "failed" makes
it throw "Prompt failed to process"; any other status leads to one further
attempt after sleeping the fixed interval (the trace is the next attempt's
trace plus this check and this sleep). -/
theorem C6_iteration_behavior (cf : Nat → Upstream)
    (interval i fuel stN : Nat) (text : String) (j : Json)
    (h : cf i = .resp true stN text j) :
    (j.status = some "succeeded" →
      pollRun cf interval i (fuel + 1) = ⟨.ok j, 1, 0⟩) ∧
    (j.status = some "failed" →
      pollRun cf interval i (fuel + 1) =
        ⟨.error (.error "Prompt failed to process"), 1, 0⟩) ∧
    (j.status ≠ some "succeeded" → j.status ≠ some "failed" →
      pollRun cf interval i (fuel + 1) =
        ⟨(pollRun cf interval (i + 1) fuel).result,
         (pollRun cf interval (i + 1) fuel).checks + 1,
         (pollRun cf interval (i + 1) fuel).sleepMs + interval⟩) := by
  refine ⟨?_, ?_, ?_⟩
  · intro hsucc
    simp [pollRun, h, hsucc]
  · intro hfail
    simp [pollRun, h, hfail]
  · intro h1 h2
    simp [pollRun, h, h1, h2]

/-- Claim C6 witness: the three branches at concrete checks. -/
theorem C6_iteration_behavior_witness :
    pollRun (fun _ => .resp true 200 "ok" ⟨none, some "succeeded", 4⟩)
        3000 0 10 = ⟨.ok ⟨none, some "succeeded", 4⟩, 1, 0⟩ ∧
    pollRun (fun _ => .resp true 200 "ok" ⟨none, some "failed", 4⟩)
        3000 0 10 =
      ⟨.error (.error "Prompt failed to process"), 1, 0⟩ :=
  ⟨(C6_iteration_behavior _ 3000 0 9 200 "ok"
      ⟨none, some "succeeded", 4⟩ rfl).1 rfl,
   (C6_iteration_behavior _ 3000 0 9 200 "ok"
      ⟨none, some "failed", 4⟩ rfl).2.1 rfl⟩

/-- Claim C7: pollForResult as called by the prompt route uses
maxAttempts = 10 and interval = 3000 ms starting at attempt 0 (last
conjunct, definitional); for every check oracle it performs at most 10
status checks, sleeps exactly the fixed interval per non-terminal
iteration so its total sleep is at most checks times 3000 and hence at
most 10 times 3000 ms; being a total function on its fuel it always
terminates with a result or a thrown failure or timeout. -/
theorem C7_attempt_budget (cf : Nat → Upstream) :
    (pollForResult cf).checks ≤ 10 ∧
    (pollForResult cf).sleepMs ≤ (pollForResult cf).checks * 3000 ∧
    (pollForResult cf).sleepMs ≤ 10 * 3000 ∧
    pollForResult cf = pollRun cf 3000 0 10 := by
  obtain ⟨h1, h2⟩ := pollRun_le cf 3000 10 0
  exact ⟨h1, h2, Nat.le_trans h2 (Nat.mul_le_mul_right 3000 h1), rfl⟩

/-- Claim C8: joinSession adds the emitting connection to the broadcast
group of exactly the received room identifier string, for every identifier
(no validation); consequently, after any sequence of joins, a broadcast to
a room reaches a connection exactly when that connection joined that room —
in particular a broadcast to "abc" reaches every client that joined "abc"
and never reaches a client that joined only "xyz". -/
theorem C8_room_membership :
    (∀ (evs : List (String × String)) (sid room : String),
      broadcastReaches (applyJoins evs) room sid ↔ (sid, room) ∈ evs) ∧
    broadcastReaches (applyJoins [("A", "abc"), ("B", "xyz")]) "abc" "A" ∧
    ¬ broadcastReaches (applyJoins [("A", "abc"), ("B", "xyz")]) "abc" "B" := by
  refine ⟨?_, ?_, ?_⟩
  · intro evs sid room
    simp [broadcastReaches, applyJoins_rooms]
  · simp [broadcastReaches, applyJoins_rooms]
  · simp [broadcastReaches, applyJoins_rooms]

/-- Claim C9: the prompt proxy endpoint enters the polling loop (issues at
least one status check) only when the initial ok response has a truthy id
and a status other than "succeeded"; when the initial response reports
status "succeeded" or carries no id, the initial body is returned verbatim
as HTTP 200 with zero status checks issued. -/
theorem C9_poll_entry (env : PromptEnv) (b : PromptBody)
    (stN : Nat) (text : String) (j : Json)
    (hb : env.body = .ok b)
    (hs : optTruthy b.stream_id = true) (hp : optTruthy b.prompt = true)
    (hsub : env.submit = .resp true stN text j) :
    ((j.status = some "succeeded" ∨ j.id = none) →
      promptPOST env = ⟨⟨200, .json j⟩, 1, 0⟩) ∧
    ((promptPOST env).checkCalls ≠ 0 →
      optTruthy j.id = true ∧ j.status ≠ some "succeeded") := by
  constructor
  · intro h
    rcases h with h | h
    · simp [promptPOST, hb, hs, hp, hsub, h]
    · simp [promptPOST, hb, hs, hp, hsub, h,
        show optTruthy none = false from rfl]
  · by_cases hc : optTruthy j.id = true ∧ j.status ≠ some "succeeded"
    · exact fun _ => hc
    · intro hne
      exfalso
      apply hne
      simp [promptPOST, hb, hs, hp, hsub, hc]

/-- Claim C9 witness: an initial response already "succeeded" is returned
verbatim with no status check. -/
theorem C9_poll_entry_witness :
    promptPOST ⟨.ok ⟨some "s1", some "sunset", none⟩,
        .resp true 200 "" ⟨some "j1", some "succeeded", 5⟩, pendingCheck⟩ =
      ⟨⟨200, .json ⟨some "j1", some "succeeded", 5⟩⟩, 1, 0⟩ :=
  (C9_poll_entry _ ⟨some "s1", some "sunset", none⟩ 200 ""
    ⟨some "j1", some "succeeded", 5⟩ rfl rfl rfl rfl).1 (Or.inl rfl)

end Beza
